import Mathlib

/-!
Shallow embedding of the lab5 IoT sources:
  src/lab5/devices/smart_light.py   (SmartLightDevice)
  src/lab5/devices/base_device.py   (Device, LoggingDeviceDecorator)
  src/lab5/controller/iot_facade.py (IOTFacade)

Python dynamic values are modelled by `PyVal`; keyword-argument mappings and
JSON/status dictionaries by insertion-ordered association lists.  Mutation of
`self` is modelled by explicit state passing: an action returns the updated
device next to its boolean result.  A Python call that can raise is modelled
with `Except String`, the error string naming the exception class.  `print`
output and outgoing HTTP requests are collected in `List String` components so
that side effects are observable in theorems.
-/

/-- Python runtime values that occur as action parameters and status-dictionary
fields: integers, strings, booleans and `None`. -/
inductive PyVal where
  | pyInt (n : Int)
  | pyStr (s : String)
  | pyBool (b : Bool)
  | pyNone
  deriving DecidableEq, Repr

/-- A Python `**kwargs` mapping: insertion-ordered list of key/value pairs
(Python keyword arguments cannot repeat a key). -/
abbrev Kwargs := List (String × PyVal)

/-- A Python dictionary of status fields, as returned by `get_status` and by
`response.json()`: insertion-ordered key/value pairs. -/
abbrev StatusDict := List (String × PyVal)

/-- Python `mapping.get(key)`: the first value stored under `key`, and `None`
when the key is absent. -/
def pyDictGet (d : List (String × PyVal)) (key : String) : PyVal :=
  match d with
  | [] => .pyNone
  | p :: rest => if p.1 == key then p.2 else pyDictGet rest key

/-- Python `==` on `PyVal`: equality within a type, `True == 1` and
`False == 0` across `bool`/`int`, and `False` across any other pair of types
(never an exception). -/
def pyEq : PyVal → PyVal → Bool
  | .pyInt m, .pyInt n => m == n
  | .pyInt m, .pyBool b => m == (if b then (1 : Int) else 0)
  | .pyBool a, .pyBool b => a == b
  | .pyBool a, .pyInt n => (if a then (1 : Int) else 0) == n
  | .pyStr s, .pyStr t => s == t
  | .pyNone, .pyNone => true
  | _, _ => false

/-- The integer a `PyVal` contributes to a Python order comparison such as
`0 <= level <= 100`: an `int` is itself, a `bool` counts as `1`/`0` (Python
`bool` is an `int` subclass), and comparing `str` or `None` with an `int`
raises `TypeError`. -/
def pyIntValue : PyVal → Except String Int
  | .pyInt n => .ok n
  | .pyBool b => .ok (if b then 1 else 0)
  | .pyStr _ => .error "TypeError"
  | .pyNone => .error "TypeError"

/-- Python `str(v)` for the values of `PyVal`. -/
def pyStrOf : PyVal → String
  | .pyInt n => toString n
  | .pyStr s => s
  | .pyBool b => if b then "True" else "False"
  | .pyNone => "None"

/-- Python `repr(v)`, as used when a dict is interpolated into an f-string. -/
def pyRepr : PyVal → String
  | .pyInt n => toString n
  | .pyStr s => "\x27" ++ s ++ "\x27"
  | .pyBool b => if b then "True" else "False"
  | .pyNone => "None"

/-- Rendering of a `**kwargs` dict inside an f-string, as in the decorator
log line `with params {kwargs}`. -/
def kwargsRepr (k : Kwargs) : String :=
  "\x7b" ++ String.intercalate ", " (k.map (fun p => pyRepr (.pyStr p.1) ++ ": " ++ pyRepr p.2)) ++ "\x7d"

/-- Python `"sep".join(parts)`. -/
def strJoin (sep : String) : List String → String
  | [] => ""
  | [a] => a
  | a :: b :: rest => a ++ sep ++ strJoin sep (b :: rest)

/-- State of a `SmartLightDevice`: the identity fields set in
`Device.__init__` (`device_id`, `host`, `port`) together with the mutable
pydantic `LightState` (`is_on`, `brightness`).  `brightness` is kept as a raw
`PyVal` because the Python assignment `self.state.brightness = level` stores
the supplied value itself (pydantic does not re-validate assignments). -/
structure SmartLightDevice where
  device_id : String
  host : String
  port : Int
  is_on : Bool
  brightness : PyVal
  deriving DecidableEq, Repr

/-- `SmartLightDevice(device_id)` with the default constructor arguments
`host="127.0.0.1"`, `port=8002` and the default `LightState`
(`is_on=False`, `brightness=50`). -/
def SmartLightDevice.init (device_id : String) : SmartLightDevice :=
  { device_id := device_id, host := "127.0.0.1", port := 8002,
    is_on := false, brightness := .pyInt 50 }

/-- `SmartLightDevice.get_status`: the status dictionary literal from
smart_light.py, field by field; `connection` is the f-string
`f"{self.host}:{self.port}"`. -/
def SmartLightDevice.get_status (d : SmartLightDevice) : StatusDict :=
  [("device_id", .pyStr d.device_id),
   ("type", .pyStr "smart_light"),
   ("is_on", .pyBool d.is_on),
   ("brightness", d.brightness),
   ("connection", .pyStr (d.host ++ ":" ++ toString d.port))]

/-- `SmartLightDevice.perform_action`: for `"power"`, compares
`kwargs.get("state")` with `"on"` / `"off"` and sets `is_on`; for
`"brightness"`, evaluates the chained comparison `0 <= level <= 100` (which
raises `TypeError` when `level` is absent or not int-comparable) and stores
`level`; every path that sets state returns `True`, all remaining paths fall
through to the final `return False`. -/
def SmartLightDevice.perform_action (d : SmartLightDevice) (action : String)
    (kwargs : Kwargs) : Except String (Bool × SmartLightDevice) :=
  if action == "power" then
    let state := pyDictGet kwargs "state"
    if pyEq state (.pyStr "on") then .ok (true, { d with is_on := true })
    else if pyEq state (.pyStr "off") then .ok (true, { d with is_on := false })
    else .ok (false, d)
  else if action == "brightness" then
    let level := pyDictGet kwargs "level"
    match pyIntValue level with
    | .ok v =>
        if 0 ≤ v ∧ v ≤ 100 then .ok (true, { d with brightness := level })
        else .ok (false, d)
    | .error e => .error e
  else
    .ok (false, d)

/-- An instance of the abstract `Device` interface from base_device.py over a
state type `σ`: the identity attributes set in `Device.__init__`, plus
`get_status` / `perform_action` as state-passing functions.  The first
component of each result is the list of lines printed during the call
(devices themselves print nothing; decorators prepend log lines). -/
structure DeviceImpl (σ : Type) where
  device_id : String
  host : String
  port : Int
  get_status : σ → List String × StatusDict
  perform_action : σ → String → Kwargs → List String × Except String (Bool × σ)

/-- `SmartLightDevice` as a `Device`: `get_status` and `perform_action`
delegate to the concrete methods and print nothing. -/
def SmartLightDevice.impl (d0 : SmartLightDevice) : DeviceImpl SmartLightDevice :=
  { device_id := d0.device_id, host := d0.host, port := d0.port,
    get_status := fun d => ([], d.get_status),
    perform_action := fun d a k => ([], d.perform_action a k) }

/-- `LoggingDeviceDecorator`: copies `device_id`/`host`/`port` from the wrapped
device, and each method prints one log line and then returns exactly what the
wrapped device's method returns. -/
def LoggingDeviceDecorator {σ : Type} (dev : DeviceImpl σ) : DeviceImpl σ :=
  { device_id := dev.device_id, host := dev.host, port := dev.port,
    get_status := fun s =>
      let r := dev.get_status s
      (("Logging: Getting status for " ++ dev.device_id) :: r.1, r.2),
    perform_action := fun s a k =>
      let r := dev.perform_action s a k
      (("Logging: Performing " ++ a ++ " on " ++ dev.device_id ++
          " with params " ++ kwargsRepr k) :: r.1, r.2) }

/-- The registry `self.devices: Dict[str, tuple]` of the facade:
insertion-ordered `device_id -> (host, port)` entries. -/
structure IOTFacade where
  devices : List (String × String × Int)
  deriving DecidableEq, Repr

/-- The HTTP world the facade talks to.  `get url` is the outcome of
`requests.get(url, timeout=2)` followed by `raise_for_status()` and
`.json()`: `some body` for a success response with JSON body `body`, `none`
when a `RequestException` (connection failure, timeout, or error status) is
raised.  `post url` is `true` exactly when `requests.post(url, timeout=2)`
returns a success status, `false` when a `RequestException` is raised. -/
structure Network where
  get : String → Option StatusDict
  post : String → Bool

/-- Python dict assignment `self.devices[device_id] = (host, port)`: an
existing key keeps its position and gets the new value, a new key is appended
at the end (CPython dicts preserve insertion order). -/
def dictInsert (d : List (String × String × Int)) (key : String)
    (v : String × Int) : List (String × String × Int) :=
  if d.any (fun p => p.1 == key) then
    d.map (fun p => if p.1 == key then (key, v) else p)
  else
    d ++ [(key, v)]

/-- The membership test `device_id not in self.devices` fused with the
indexing `self.devices[device_id]`: `some (host, port)` when the key is
present, `none` when it is absent. -/
def dictLookup (d : List (String × String × Int)) (key : String) :
    Option (String × Int) :=
  match d with
  | [] => none
  | p :: rest => if p.1 == key then some p.2 else dictLookup rest key

/-- `IOTFacade.register_device(device)`: stores
`(device.host, device.port)` under `device.device_id` and returns the
confirmation f-string. -/
def IOTFacade.register_device {σ : Type} (f : IOTFacade) (dev : DeviceImpl σ) :
    IOTFacade × String :=
  ({ devices := dictInsert f.devices dev.device_id (dev.host, dev.port) },
   "Device " ++ dev.device_id ++ " registered successfully")

/-- `IOTFacade.get_device_status(device_id)`: `None` (with no request) for an
unregistered id; otherwise issues one GET to `http://host:port/status` and
returns its JSON body, or `None` on `RequestException`.  The first component
lists the URLs requested during the call. -/
def IOTFacade.get_device_status (f : IOTFacade) (net : Network)
    (device_id : String) : List String × Option StatusDict :=
  match dictLookup f.devices device_id with
  | none => ([], none)
  | some (host, port) =>
      let url := "http://" ++ host ++ ":" ++ toString port ++ "/status"
      ([url], net.get url)

/-- `IOTFacade.perform_device_action(device_id, action, **kwargs)`: `False`
(with no request) for an unregistered id; otherwise builds
`/{action}` plus `"/" + "/".join(str(v) for v in kwargs.values())` when
there are parameters, POSTs it, and returns `True` exactly on a success
response.  The first component lists the URLs requested. -/
def IOTFacade.perform_device_action (f : IOTFacade) (net : Network)
    (device_id : String) (action : String) (kwargs : Kwargs) :
    List String × Bool :=
  match dictLookup f.devices device_id with
  | none => ([], false)
  | some (host, port) =>
      let params := kwargs.map (fun p => pyStrOf p.2)
      let url_path := "/" ++ action ++
        (if params.isEmpty then "" else "/" ++ strJoin "/" params)
      let full_url := "http://" ++ host ++ ":" ++ toString port ++ url_path
      ([full_url], net.post full_url)

/-- Loop body of `IOTFacade.get_all_status`: iterate the given registry keys,
fetch each status, and keep a result only when `if status:` holds — Python
truthiness, so `None` and the empty dict are both skipped. -/
def IOTFacade.get_all_status_go (f : IOTFacade) (net : Network) :
    List (String × String × Int) → List String × List StatusDict
  | [] => ([], [])
  | entry :: rest =>
      let r := f.get_device_status net entry.1
      let acc := IOTFacade.get_all_status_go f net rest
      (r.1 ++ acc.1,
       (match r.2 with
        | some st => if st.isEmpty then [] else [st]
        | none => []) ++ acc.2)

/-- `IOTFacade.get_all_status()`: iterates `self.devices` in registry order,
collecting the truthy per-device statuses. -/
def IOTFacade.get_all_status (f : IOTFacade) (net : Network) :
    List String × List StatusDict :=
  IOTFacade.get_all_status_go f net f.devices

/-- A network where every request fails (`RequestException` everywhere):
used to instantiate theorems at concrete inputs. -/
def netDown : Network := { get := fun _ => none, post := fun _ => false }

/-- A network where every GET succeeds with an empty JSON object and every
POST fails. -/
def netEmptyBody : Network := { get := fun _ => some [], post := fun _ => false }

/-- A one-device facade used to instantiate theorems at concrete inputs. -/
def exFacade : IOTFacade := { devices := [("a", "h", 1)] }

/-- Python `==` against a string literal succeeds only on the equal string:
no value of another type compares equal to a `str`. -/
theorem pyEq_pyStr_iff (v : PyVal) (s : String) :
    pyEq v (.pyStr s) = true ↔ v = .pyStr s := by
  cases v <;> simp [pyEq]

/-- Overwriting an existing registry key: the lookup finds the new value. -/
theorem dictLookup_map_overwrite (k : String) (v : String × Int) :
    ∀ l : List (String × String × Int), l.any (fun p => p.1 == k) = true →
      dictLookup (l.map (fun p => if p.1 == k then (k, v) else p)) k = some v := by
  intro l
  induction l with
  | nil => simp
  | cons p rest ih =>
    intro hany
    by_cases hp : p.1 == k
    · simp [dictLookup, hp]
    · simp only [List.any_cons, hp, Bool.false_or] at hany
      simpa [dictLookup, hp] using ih hany

/-- Appending a fresh registry key: the lookup finds the appended value. -/
theorem dictLookup_append_fresh (k : String) (v : String × Int) :
    ∀ l : List (String × String × Int), l.any (fun p => p.1 == k) = false →
      dictLookup (l ++ [(k, v)]) k = some v := by
  intro l
  induction l with
  | nil => simp [dictLookup]
  | cons p rest ih =>
    intro hany
    simp only [List.any_cons, Bool.or_eq_false_iff] at hany
    simp only [List.cons_append, dictLookup]
    rw [if_neg (by simp [hany.1])]
    exact ih hany.2

/-- After a dict assignment, looking the key up yields the assigned value. -/
theorem dictLookup_dictInsert_self (l : List (String × String × Int))
    (k : String) (v : String × Int) : dictLookup (dictInsert l k v) k = some v := by
  unfold dictInsert
  by_cases hany : l.any (fun p => p.1 == k)
  · rw [if_pos hany]
    exact dictLookup_map_overwrite k v l hany
  · rw [if_neg hany]
    exact dictLookup_append_fresh k v l (Bool.eq_false_iff.mpr hany)

/-- Claim C2: for every device, state, action name and parameter mapping,
`get_status` and `perform_action` through a `LoggingDeviceDecorator` return
exactly what the wrapped device returns, and the same holds when the wrapped
device is itself already a decorator. -/
theorem loggingDecorator_transparent {σ : Type} (dev : DeviceImpl σ)
    (s : σ) (action : String) (kwargs : Kwargs) :
    ((LoggingDeviceDecorator dev).get_status s).2 = (dev.get_status s).2 ∧
    ((LoggingDeviceDecorator dev).perform_action s action kwargs).2 =
      (dev.perform_action s action kwargs).2 ∧
    ((LoggingDeviceDecorator (LoggingDeviceDecorator dev)).get_status s).2 =
      (dev.get_status s).2 ∧
    ((LoggingDeviceDecorator (LoggingDeviceDecorator dev)).perform_action s action kwargs).2 =
      (dev.perform_action s action kwargs).2 :=
  ⟨rfl, rfl, rfl, rfl⟩

/-- Claim C3: `perform_action("brightness", level=L)` with an integer `L`
returns true and sets brightness to `L` when `0 <= L <= 100`, and returns
false leaving the device unchanged otherwise; in particular it never raises
on an integer level. -/
theorem brightness_int_level_spec (d : SmartLightDevice) (L : Int) :
    d.perform_action "brightness" [("level", .pyInt L)] =
      if 0 ≤ L ∧ L ≤ 100 then .ok (true, { d with brightness := .pyInt L })
      else .ok (false, d) := by
  simp [SmartLightDevice.perform_action, pyDictGet, pyIntValue]

/-- Claim C4: `perform_action("power", state="on")` returns true and turns the
light on, `state="off"` returns true and turns it off, and any other value of
`state` — any non-"on"/"off" `PyVal`, or an absent parameter — returns false
and leaves the device unchanged. -/
theorem power_state_spec (d : SmartLightDevice) (v : PyVal)
    (hon : v ≠ .pyStr "on") (hoff : v ≠ .pyStr "off") :
    d.perform_action "power" [("state", .pyStr "on")] =
      .ok (true, { d with is_on := true }) ∧
    d.perform_action "power" [("state", .pyStr "off")] =
      .ok (true, { d with is_on := false }) ∧
    d.perform_action "power" [("state", v)] = .ok (false, d) ∧
    d.perform_action "power" [] = .ok (false, d) := by
  refine ⟨rfl, rfl, ?_, rfl⟩
  have h1 : pyEq v (.pyStr "on") = false :=
    Bool.eq_false_iff.mpr (fun hc => hon ((pyEq_pyStr_iff v "on").mp hc))
  have h2 : pyEq v (.pyStr "off") = false :=
    Bool.eq_false_iff.mpr (fun hc => hoff ((pyEq_pyStr_iff v "off").mp hc))
  simp [SmartLightDevice.perform_action, pyDictGet, h1, h2]

/-- Witness for claim C4 at a concrete non-"on"/"off" state value. -/
theorem power_state_spec_witness :
    (SmartLightDevice.init "light_001").perform_action "power" [("state", .pyNone)] =
      .ok (false, SmartLightDevice.init "light_001") :=
  (power_state_spec (SmartLightDevice.init "light_001") .pyNone
    (by decide) (by decide)).2.2.1

/-- Claim C7: in every state, `get_status` returns (totally, never failing) a
dictionary whose keys are exactly `device_id`, `type`, `is_on`, `brightness`,
`connection` in that order, with `type` the fixed string `"smart_light"`,
`device_id` the identity, `connection` the `host:port` string, and
`is_on`/`brightness` the current light state. -/
theorem get_status_fields (d : SmartLightDevice) :
    d.get_status.map Prod.fst =
      ["device_id", "type", "is_on", "brightness", "connection"] ∧
    pyDictGet d.get_status "device_id" = .pyStr d.device_id ∧
    pyDictGet d.get_status "type" = .pyStr "smart_light" ∧
    pyDictGet d.get_status "is_on" = .pyBool d.is_on ∧
    pyDictGet d.get_status "brightness" = d.brightness ∧
    pyDictGet d.get_status "connection" = .pyStr (d.host ++ ":" ++ toString d.port) :=
  ⟨rfl, rfl, rfl, rfl, rfl, rfl⟩

/-- Claim C1 counterexample: `perform_action("brightness")` with the `level`
parameter absent evaluates `0 <= None` and raises `TypeError` instead of
returning false. -/
theorem perform_action_raises_on_absent_level :
    (SmartLightDevice.init "light_001").perform_action "brightness" [] =
      .error "TypeError" := rfl

/-- Claim C1 (amended): `perform_action` returns a boolean (never raising)
for action `"power"` with any parameters — false, with the device unchanged,
whenever the power state is neither `"on"` nor `"off"` (including absent) —
and returns false for every unrecognized action; for `"brightness"` it
returns a boolean whenever the supplied `level` is int-comparable, but when
`level` is absent, `None`, or a string, the chained comparison raises
`TypeError` instead of returning false. -/
theorem perform_action_exception_behaviour (d : SmartLightDevice)
    (action : String) (kwargs : Kwargs) :
    (action ≠ "power" → action ≠ "brightness" →
      d.perform_action action kwargs = .ok (false, d)) ∧
    (action = "power" →
      ((pyDictGet kwargs "state" ≠ .pyStr "on" ∧
        pyDictGet kwargs "state" ≠ .pyStr "off") →
        d.perform_action action kwargs = .ok (false, d)) ∧
      ∃ b d', d.perform_action action kwargs = .ok (b, d')) ∧
    (action = "brightness" →
      ((∃ v, pyIntValue (pyDictGet kwargs "level") = .ok v) →
        ∃ b d', d.perform_action action kwargs = .ok (b, d')) ∧
      (pyIntValue (pyDictGet kwargs "level") = .error "TypeError" →
        d.perform_action action kwargs = .error "TypeError")) := by
  refine ⟨?_, ?_, ?_⟩
  · intro h1 h2
    simp [SmartLightDevice.perform_action, h1, h2]
  · rintro rfl
    constructor
    · rintro ⟨hon, hoff⟩
      have h1 : pyEq (pyDictGet kwargs "state") (.pyStr "on") = false :=
        Bool.eq_false_iff.mpr
          (fun hc => hon ((pyEq_pyStr_iff (pyDictGet kwargs "state") "on").mp hc))
      have h2 : pyEq (pyDictGet kwargs "state") (.pyStr "off") = false :=
        Bool.eq_false_iff.mpr
          (fun hc => hoff ((pyEq_pyStr_iff (pyDictGet kwargs "state") "off").mp hc))
      simp [SmartLightDevice.perform_action, h1, h2]
    · by_cases hon : pyEq (pyDictGet kwargs "state") (.pyStr "on")
      · exact ⟨true, { d with is_on := true },
          by simp [SmartLightDevice.perform_action, hon]⟩
      · by_cases hoff : pyEq (pyDictGet kwargs "state") (.pyStr "off")
        · exact ⟨true, { d with is_on := false },
            by simp [SmartLightDevice.perform_action, hon, hoff]⟩
        · exact ⟨false, d, by simp [SmartLightDevice.perform_action, hon, hoff]⟩
  · rintro rfl
    constructor
    · rintro ⟨v, hv⟩
      by_cases hr : 0 ≤ v ∧ v ≤ 100
      · exact ⟨true, { d with brightness := pyDictGet kwargs "level" },
          by simp [SmartLightDevice.perform_action, hv, hr]⟩
      · exact ⟨false, d, by simp [SmartLightDevice.perform_action, hv, hr]⟩
    · intro he
      simp [SmartLightDevice.perform_action, he]

/-- Witness for the amended claim C1 at a concrete malformed level. -/
theorem perform_action_exception_behaviour_witness :
    (SmartLightDevice.init "light_001").perform_action "brightness"
        [("level", .pyStr "high")] = .error "TypeError" :=
  ((perform_action_exception_behaviour (SmartLightDevice.init "light_001")
      "brightness" [("level", .pyStr "high")]).2.2 rfl).2 rfl

/-- Claim C5: for an identity absent from the registry, `get_device_status`
returns `None` and `perform_device_action` returns false, each issuing no
network request, and neither raises. -/
theorem facade_unknown_device (f : IOTFacade) (net : Network)
    (device_id action : String) (kwargs : Kwargs)
    (h : dictLookup f.devices device_id = none) :
    f.get_device_status net device_id = ([], none) ∧
    f.perform_device_action net device_id action kwargs = ([], false) := by
  constructor
  · simp [IOTFacade.get_device_status, h]
  · simp [IOTFacade.perform_device_action, h]

/-- Witness for claim C5 on a one-device facade and an unknown identity. -/
theorem facade_unknown_device_witness :
    IOTFacade.get_device_status exFacade netDown "b" = ([], none) ∧
    IOTFacade.perform_device_action exFacade netDown "b" "power" [] = ([], false) :=
  facade_unknown_device exFacade netDown "b" "power" [] rfl

/-- Claim C6 counterexample: with one registered device whose status GET
succeeds with the empty JSON object, the per-device lookup is non-absent and
the list of non-absent lookup results is `[[]]`, yet `get_all_status` returns
`[]`: the Python guard `if status:` tests truthiness and also drops the empty
dict, so the output is not the list of non-absent results. -/
theorem get_all_status_drops_empty_dict :
    (IOTFacade.get_device_status exFacade netEmptyBody "a").2 = some [] ∧
    List.filterMap (fun p => (IOTFacade.get_device_status exFacade netEmptyBody p.1).2)
      exFacade.devices = [[]] ∧
    (IOTFacade.get_all_status exFacade netEmptyBody).2 = [] ∧
    ([] : List StatusDict) ≠ [[]] :=
  ⟨rfl, rfl, rfl, by decide⟩

/-- The loop of `get_all_status` keeps, in order, exactly the truthy lookup
results of the registry entries it iterates. -/
theorem get_all_status_go_spec (f : IOTFacade) (net : Network) :
    ∀ l : List (String × String × Int),
      (IOTFacade.get_all_status_go f net l).2 =
        l.filterMap (fun p =>
          match (f.get_device_status net p.1).2 with
          | some st => if st.isEmpty then none else some st
          | none => none) := by
  intro l
  induction l with
  | nil => rfl
  | cons p rest ih =>
    simp only [IOTFacade.get_all_status_go, List.filterMap_cons]
    cases hs : (f.get_device_status net p.1).2 with
    | none => simpa using ih
    | some st =>
      by_cases he : st.isEmpty <;> simp [he, ih]

/-- Claim C6 (amended): `get_all_status` returns, in registry iteration
order, exactly the truthy per-identity lookup results — those that are
non-absent and non-empty; an absent lookup or an empty status dictionary is
silently omitted and contributes no error. -/
theorem get_all_status_filters_truthy (f : IOTFacade) (net : Network) :
    (f.get_all_status net).2 =
      f.devices.filterMap (fun p =>
        match (f.get_device_status net p.1).2 with
        | some st => if st.isEmpty then none else some st
        | none => none) :=
  get_all_status_go_spec f net f.devices

/-- Building `"/" + action` plus the optional joined parameter segments is
the same as joining `action` and the parameters with slashes. -/
theorem path_join (action : String) (ps : List String) :
    "/" ++ action ++ (if ps.isEmpty then "" else "/" ++ strJoin "/" ps) =
      "/" ++ strJoin "/" (action :: ps) := by
  cases ps with
  | nil => simp [strJoin]
  | cons q qs => simp [strJoin, String.append_assoc]

/-- For a registered identity, `perform_device_action` issues exactly one
POST to the URL built from the stored address, the action and the stringified
parameter values, and returns the network outcome of that POST. -/
theorem perform_device_action_found (f : IOTFacade) (net : Network)
    (device_id action : String) (kwargs : Kwargs) (host : String) (port : Int)
    (h : dictLookup f.devices device_id = some (host, port)) :
    f.perform_device_action net device_id action kwargs =
      (["http://" ++ host ++ ":" ++ toString port ++ "/" ++
          strJoin "/" (action :: kwargs.map (fun p => pyStrOf p.2))],
       net.post ("http://" ++ host ++ ":" ++ toString port ++ "/" ++
          strJoin "/" (action :: kwargs.map (fun p => pyStrOf p.2)))) := by
  simp only [IOTFacade.perform_device_action, h]
  rw [path_join]
  simp [String.append_assoc]

/-- Claim C8: for every registered identity, `perform_device_action` requests
exactly one URL, whose path is the action name followed by each parameter
value (values only, stringified, in the order supplied) as slash-separated
path segments under the device's address, and it returns true exactly when
the device responded with a success status; every `RequestException` path
(network failure, timeout, error status) yields false. -/
theorem perform_device_action_url (f : IOTFacade) (net : Network)
    (device_id action : String) (kwargs : Kwargs) (host : String) (port : Int)
    (h : dictLookup f.devices device_id = some (host, port)) :
    ∃ url, f.perform_device_action net device_id action kwargs = ([url], net.post url) ∧
      url = "http://" ++ host ++ ":" ++ toString port ++ "/" ++
        strJoin "/" (action :: kwargs.map (fun p => pyStrOf p.2)) :=
  ⟨_, perform_device_action_found f net device_id action kwargs host port h, rfl⟩

/-- Witness for claim C8 on a concrete facade, action and parameter list. -/
theorem perform_device_action_url_witness :
    IOTFacade.perform_device_action exFacade netDown "a" "power"
        [("state", .pyStr "on")] = (["http://h:1/power/on"], false) := by
  obtain ⟨url, h1, h2⟩ := perform_device_action_url exFacade netDown "a" "power"
    [("state", .pyStr "on")] "h" 1 rfl
  rw [h1, h2]
  rfl

/-- Claim C9: registering a device always succeeds, stores (or overwrites)
the mapping from its identity to its address, returns the confirmation
string, and an immediately following status or action lookup under that
identity resolves to that device's address: the request URL of each is built
from the registered host and port. -/
theorem register_device_resolves {σ : Type} (f : IOTFacade) (dev : DeviceImpl σ)
    (net : Network) (action : String) (kwargs : Kwargs) :
    (f.register_device dev).2 =
      "Device " ++ dev.device_id ++ " registered successfully" ∧
    dictLookup (f.register_device dev).1.devices dev.device_id =
      some (dev.host, dev.port) ∧
    ((f.register_device dev).1.get_device_status net dev.device_id).1 =
      ["http://" ++ dev.host ++ ":" ++ toString dev.port ++ "/status"] ∧
    ((f.register_device dev).1.perform_device_action net dev.device_id action kwargs).1 =
      ["http://" ++ dev.host ++ ":" ++ toString dev.port ++ "/" ++
        strJoin "/" (action :: kwargs.map (fun p => pyStrOf p.2))] := by
  have hl : dictLookup (f.register_device dev).1.devices dev.device_id =
      some (dev.host, dev.port) :=
    dictLookup_dictInsert_self f.devices dev.device_id (dev.host, dev.port)
  refine ⟨rfl, hl, ?_, ?_⟩
  · simp [IOTFacade.get_device_status, hl]
  · rw [perform_device_action_found (f.register_device dev).1 net dev.device_id
      action kwargs dev.host dev.port hl]

/-- Claim C10: every `perform_action` call that returns preserves
`device_id`, `host` and `port`; a `"power"` action additionally never changes
`brightness`, and a `"brightness"` action never changes `is_on`. -/
theorem perform_action_frame (d : SmartLightDevice) (action : String)
    (kwargs : Kwargs) (b : Bool) (d' : SmartLightDevice)
    (h : d.perform_action action kwargs = .ok (b, d')) :
    d'.device_id = d.device_id ∧ d'.host = d.host ∧ d'.port = d.port ∧
    (action = "power" → d'.brightness = d.brightness) ∧
    (action = "brightness" → d'.is_on = d.is_on) := by
  by_cases h1 : action = "power"
  · subst h1
    have hne : ("power" : String) ≠ "brightness" := by decide
    by_cases hon : pyEq (pyDictGet kwargs "state") (.pyStr "on")
    · simp [SmartLightDevice.perform_action, hon] at h
      obtain ⟨hb, hd⟩ := h
      subst hd
      exact ⟨rfl, rfl, rfl, fun _ => rfl, fun hc => absurd hc hne⟩
    · by_cases hoff : pyEq (pyDictGet kwargs "state") (.pyStr "off")
      · simp [SmartLightDevice.perform_action, hon, hoff] at h
        obtain ⟨hb, hd⟩ := h
        subst hd
        exact ⟨rfl, rfl, rfl, fun _ => rfl, fun hc => absurd hc hne⟩
      · simp [SmartLightDevice.perform_action, hon, hoff] at h
        obtain ⟨hb, hd⟩ := h
        subst hd
        exact ⟨rfl, rfl, rfl, fun _ => rfl, fun hc => absurd hc hne⟩
  · by_cases h2 : action = "brightness"
    · subst h2
      have hne : ("brightness" : String) ≠ "power" := by decide
      cases hv : pyIntValue (pyDictGet kwargs "level") with
      | ok v =>
        by_cases hr : 0 ≤ v ∧ v ≤ 100
        · simp [SmartLightDevice.perform_action, hv, hr] at h
          obtain ⟨hb, hd⟩ := h
          subst hd
          exact ⟨rfl, rfl, rfl, fun hc => absurd hc hne, fun _ => rfl⟩
        · simp [SmartLightDevice.perform_action, hv, hr] at h
          obtain ⟨hb, hd⟩ := h
          subst hd
          exact ⟨rfl, rfl, rfl, fun hc => absurd hc hne, fun _ => rfl⟩
      | error e =>
        simp [SmartLightDevice.perform_action, hv] at h
    · simp [SmartLightDevice.perform_action, h1, h2] at h
      obtain ⟨hb, hd⟩ := h
      subst hd
      exact ⟨rfl, rfl, rfl, fun hc => absurd hc h1, fun hc => absurd hc h2⟩

/-- Witness for claim C10 at a concrete successful power action. -/
theorem perform_action_frame_witness :
    ({ SmartLightDevice.init "light_001" with is_on := true } : SmartLightDevice).brightness =
      (SmartLightDevice.init "light_001").brightness :=
  (perform_action_frame (SmartLightDevice.init "light_001") "power"
      [("state", .pyStr "on")] true
      { SmartLightDevice.init "light_001" with is_on := true } rfl).2.2.2.1 rfl
